import Mathlib

/-!
Verification development for the connect-client Planner
(src/src/connect/planner.cpp) and the USB power-cycle supervisor
(src/unnamed/part_000) of Prusa-Firmware-Buddy_custom_hw.

The C++ state machines are shallowly embedded: member functions become
pure functions on an explicit state record, the external collaborators
(printer, transfer Monitor, clock) become an explicit environment
record, and side effects on collaborators become an explicit effect
list.  Machine integers are modelled as Nat with an explicit mod 2^32
where the C++ arithmetic can wrap.
-/

namespace ConnectClient

/-- 32-bit wrap-around subtraction, as in the C++ computation
now() - past on unsigned 32-bit timestamps. -/
def wrapSub (a b : Nat) : Nat :=
  (a % 2 ^ 32 + (2 ^ 32 - b % 2 ^ 32)) % 2 ^ 32

/-- COOLDOWN_BASE from planner.cpp: first retry after 100 ms. -/
def COOLDOWN_BASE : Nat := 100

/-- COOLDOWN_MAX from planner.cpp: retries at most a minute apart. -/
def COOLDOWN_MAX : Nat := 1000 * 60

/-- TELEMETRY_INTERVAL_LONG from planner.cpp. -/
def TELEMETRY_INTERVAL_LONG : Nat := 1000 * 4

/-- TELEMETRY_INTERVAL_SHORT from planner.cpp. -/
def TELEMETRY_INTERVAL_SHORT : Nat := 1000

/-- RECONNECT_AFTER from planner.cpp. -/
def RECONNECT_AFTER : Nat := 1000 * 10

/-- GIVE_UP_AFTER_ATTEMPTS from planner.cpp. -/
def GIVE_UP_AFTER_ATTEMPTS : Nat := 5

/-- EventType from the connect client event model. -/
inductive EventType where
  | Info
  | Accepted
  | Rejected
  | JobInfo
  | FileInfo
  | TransferInfo
  | Finished
  | Failed
  | TransferStopped
  | TransferAborted
  | TransferFinished
deriving DecidableEq, Repr

/-- Event record: type, optional command id, job id, path, transfer id,
reason, the info_rescan_files flag and the start command id of a
transfer, in the field order of the C++ aggregate. -/
structure Event where
  type : EventType
  command_id : Option Nat := none
  job_id : Option Nat := none
  path : Option String := none
  transfer_id : Option Nat := none
  reason : Option String := none
  info_rescan_files : Bool := false
  start_cmd_id : Option Nat := none
deriving DecidableEq, Repr

/-- Terminal outcome of a transfer, from the Monitor interface. -/
inductive Outcome where
  | Finished
  | Error
  | Stopped
deriving DecidableEq, Repr

/-- Modelled from the spec: the ChangeTracker (planner.hpp is not part
of src/, only its use in planner.cpp is).  It stores the last observed
hash and a dirty flag; set_hash records a differing hash and marks
dirty, returning the dirty state; mark_clean clears the flag,
mark_dirty raises it. -/
structure ChangedHash where
  last : Option Nat := none
  dirty : Bool := false
deriving DecidableEq, Repr

/-- Modelled from the spec: ChangeTracker.set_hash. -/
def ChangedHash.set_hash (h : Nat) (t : ChangedHash) : Bool × ChangedHash :=
  let t2 := if t.last ≠ some h then { last := some h, dirty := true } else t
  (t2.dirty, t2)

/-- Modelled from the spec: ChangeTracker.mark_clean. -/
def ChangedHash.mark_clean (t : ChangedHash) : ChangedHash :=
  { t with dirty := false }

/-- Modelled from the spec: ChangeTracker.mark_dirty. -/
def ChangedHash.mark_dirty (t : ChangedHash) : ChangedHash :=
  { t with dirty := true }

/-- A background command: the server-assigned id plus the gcode payload
(the cursor into the shared buffer is irrelevant to the claims). -/
structure BackgroundCommand where
  id : Nat
  gcode : String
deriving DecidableEq, Repr

/-- The Planner state, field for field the members used by
planner.cpp.  The Download handle is modelled by its presence. -/
structure Planner where
  planned_event : Option Event := none
  last_telemetry : Option Nat := none
  last_success : Option Nat := none
  cooldown : Option Nat := none
  perform_cooldown : Bool := false
  failed_attempts : Nat := 0
  info_changes : ChangedHash := {}
  file_changes : ChangedHash := {}
  background_command : Option BackgroundCommand := none
  download : Option Unit := none
  observed_transfer : Option Nat := none
  transfer_start_cmd : Option Nat := none
deriving DecidableEq, Repr

/-- Environment snapshot the Planner queries in next_action and
action_done: the clock, the printer hashes and printing flag, and the
transfer Monitor (current id and bounded-history outcome lookup). -/
structure Env where
  now : Nat
  info_fingerprint : Nat
  files_hash : Nat
  is_printing : Bool
  monitor_id : Option Nat
  outcome : Nat → Option Outcome

/-- Actions the Planner can return from next_action.  A Sleep carries
its duration and whether the background command and the download are
handed to the transport for advancing. -/
inductive Action where
  | event (e : Event)
  | sendTelemetry (empty : Bool)
  | sleep (amount : Nat) (background : Bool) (down : Bool)
deriving DecidableEq, Repr

/-- Result the transport reports back via action_done. -/
inductive ActionResult where
  | Ok
  | Failed
  | Refused
deriving DecidableEq, Repr

/-- The Info event synthesized by the Planner itself (all optional
fields empty). -/
def infoEvent : Event := { type := .Info }

/-- The terminal event type for a transfer outcome, from the switch in
Planner::next_action. -/
def outcomeEventType : Outcome → EventType
  | .Finished => .TransferFinished
  | .Error => .TransferAborted
  | .Stopped => .TransferStopped

/-- Planner::sleep: the background command is attached only when no
event is pending; the download is attached whenever present. -/
def mkSleep (s : Planner) (amount : Nat) : Action :=
  .sleep amount (s.background_command.isSome && !s.planned_event.isSome)
    s.download.isSome

/-- since(last_telemetry) and the telemetry cadence branch at the end
of Planner::next_action. -/
def telemetryStep (env : Env) (s : Planner) : Action × Planner :=
  match s.last_telemetry with
  | some t =>
      let since := wrapSub env.now t
      let interval :=
        if env.is_printing || s.background_command.isSome then
          TELEMETRY_INTERVAL_SHORT
        else TELEMETRY_INTERVAL_LONG
      if since ≥ interval then (.sendTelemetry false, s)
      else (mkSleep s (interval - since), s)
  | none => (.sendTelemetry false, s)

/-- Planner::next_action.  Priority order as in the source: pending
cooldown, pending event, change-tracker Info, transfer status edge,
telemetry cadence.  The short-circuit of
info_changes.set_hash(...) || file_changes.set_hash(...) is kept: the
file tracker is not touched when the info tracker reports a change. -/
def nextAction (env : Env) (s : Planner) : Action × Planner :=
  if s.perform_cooldown then
    let s2 := { s with perform_cooldown := false }
    (mkSleep s2 (s.cooldown.getD 0), s2)
  else
    match s.planned_event with
    | some e => (.event e, s)
    | none =>
        let infoRes := s.info_changes.set_hash env.info_fingerprint
        if infoRes.1 then
          let ev : Event :=
            { type := .Info, info_rescan_files := s.file_changes.dirty }
          (.event ev, { s with info_changes := infoRes.2,
                               planned_event := some ev })
        else
          let fileRes := s.file_changes.set_hash env.files_hash
          if fileRes.1 then
            let ev : Event :=
              { type := .Info, info_rescan_files := fileRes.2.dirty }
            (.event ev, { s with info_changes := infoRes.2,
                                 file_changes := fileRes.2,
                                 planned_event := some ev })
          else
            let s3 := { s with info_changes := infoRes.2,
                               file_changes := fileRes.2 }
            if env.monitor_id ≠ s.observed_transfer then
              let s4 := { s3 with observed_transfer := env.monitor_id }
              match s.observed_transfer, s.observed_transfer.bind env.outcome with
              | some tid, some oc =>
                  let ev : Event :=
                    { type := outcomeEventType oc, transfer_id := some tid,
                      start_cmd_id := s.transfer_start_cmd }
                  (.event ev, { s4 with planned_event := some ev,
                                        transfer_start_cmd := none })
              | _, _ => telemetryStep env s4
            else
              telemetryStep env s3

/-- The give-up step of Planner::action_done(Failed): increment
failed_attempts (a uint8, hence mod 256); on reaching
GIVE_UP_AFTER_ATTEMPTS drop a pending non-Info event and reset the
counter. -/
def giveUp (s : Planner) : Planner :=
  let fa := (s.failed_attempts + 1) % 256
  if fa ≥ GIVE_UP_AFTER_ATTEMPTS then
    { s with
      planned_event :=
        match s.planned_event with
        | some e => if e.type ≠ .Info then none else some e
        | none => none,
      failed_attempts := 0 }
  else
    { s with failed_attempts := fa }

/-- The reconnect step of Planner::action_done(Failed):
since(last_success).value_or(0) is at least RECONNECT_AFTER and no
event is pending, so plan an Info event and clear last_success. -/
def reconnectCheck (env : Env) (s : Planner) : Planner :=
  let sinceSuccess : Nat :=
    match s.last_success with
    | some t => wrapSub env.now t
    | none => 0
  if sinceSuccess ≥ RECONNECT_AFTER ∧ s.planned_event = none then
    { s with planned_event := some infoEvent, last_success := none }
  else s

/-- The cooldown step of Planner::action_done(Failed): double the
cooldown (from COOLDOWN_BASE / 2 when unset, on uint32), cap at
COOLDOWN_MAX, and request the cooldown sleep. -/
def applyCooldown (s : Planner) : Planner :=
  { s with
    cooldown := some (min COOLDOWN_MAX (s.cooldown.getD (COOLDOWN_BASE / 2) * 2 % 2 ^ 32)),
    perform_cooldown := true }

/-- Planner::action_done.  Ok and Refused record the success time,
clear the backoff state and consume a pending event (marking trackers
clean for an Info event and forcing telemetry next); Failed runs the
give-up, reconnect and cooldown steps in order. -/
def actionDone (env : Env) (r : ActionResult) (s : Planner) : Planner :=
  match r with
  | .Ok | .Refused =>
      let s2 := { s with last_success := some env.now,
                         perform_cooldown := false,
                         cooldown := none,
                         failed_attempts := 0 }
      match s.planned_event with
      | some e =>
          let s3 :=
            if e.type = .Info then
              { s2 with
                info_changes := s2.info_changes.mark_clean,
                file_changes :=
                  if e.info_rescan_files then s2.file_changes.mark_clean
                  else s2.file_changes }
            else s2
          { s3 with planned_event := none, last_telemetry := none }
      | none => { s2 with last_telemetry := some env.now }
  | .Failed => applyCooldown (reconnectCheck env (giveUp s))

/-- strstr, character-list level: does the needle occur as a
contiguous substring of the haystack. -/
def containsSub (needle : List Char) : List Char → Bool
  | [] => needle.isEmpty
  | c :: rest => needle.isPrefixOf (c :: rest) || containsSub needle rest

/-- n consecutive action_done(Failed) calls with no intervening
success, newest call outermost. -/
def failIter (env : Env) : Nat → Planner → Planner
  | 0, s => s
  | n + 1, s => actionDone env .Failed (failIter env n s)

/-- A sequence of next_action calls, each against its own environment
snapshot, keeping only the resulting Planner state. -/
def runNextActions : List Env → Planner → Planner
  | [], s => s
  | e :: rest, s => runNextActions rest (nextAction e s).2

/-- path_allowed from planner.cpp: on /usb (the bare /usb included)
and without a /../ component. -/
def path_allowed (p : String) : Bool :=
  let is_on_usb := "/usb/".toList.isPrefixOf p.toList || p = "/usb"
  let contains_upper := containsSub "/../".toList p.toList
  is_on_usb && !contains_upper

/-- The job-control operations the Pause/Resume/Stop commands issue. -/
inductive JobControl where
  | Pause
  | Resume
  | Stop
deriving DecidableEq, Repr

/-- The payload variants of an inbound command. -/
inductive CommandData where
  | unknown
  | broken (reason : String)
  | gcodeTooLarge
  | processingOtherCommand
  | processingThisCommand
  | gcode (g : String)
  | pausePrint
  | resumePrint
  | stopPrint
  | startPrint (path : String)
  | sendInfo
  | sendJobInfo (job_id : Nat)
  | sendFileInfo (path : String)
  | sendTransferInfo
  | setPrinterReady
  | cancelPrinterReady
  | startConnectDownload (team : Nat) (hash : String) (path : String)
deriving DecidableEq, Repr

/-- An inbound command: server-assigned id plus payload. -/
structure Command where
  id : Nat
  data : CommandData
deriving DecidableEq, Repr

/-- Result variants of Download::start_connect_download. -/
inductive DownloadResult where
  | download
  | noTransferSlot
  | alreadyExists
  | refusedRequest
  | storage (msg : String)
deriving DecidableEq, Repr

/-- Calls the command handlers make on the printer and the transfer
engine, recorded as an effect trace. -/
inductive Effect where
  | configQuery (reset_changed : Bool)
  | jobControl (op : JobControl)
  | startPrintCall (path : String)
  | setReady (b : Bool)
  | downloadStart (host : String) (port : Nat) (url : String) (dest : String)
deriving DecidableEq, Repr

/-- Environment for command handling: the printer responses and the
transfer-engine response the handlers would observe. -/
structure CmdEnv where
  job_control : JobControl → Bool
  start_print : String → Bool
  set_ready : Bool → Bool
  path_exists : String → Bool
  config_changed : Bool
  tls : Bool
  host : String
  port : Nat
  down_result : DownloadResult

/-- Helper building a Rejected event with a reason, mirroring the
C++ aggregate Event with type, command id and reason. -/
def rejectedEvent (cid : Nat) (reason : String) : Event :=
  { type := .Rejected, command_id := some cid, reason := some reason }

/-- The StartConnectDownload handler of Planner::command: config
queried without clearing the changed flag, config drift and TLS
rejected, then the download started and its result dispatched. -/
def commandStartConnectDownload (env : CmdEnv) (cid team : Nat)
    (hash dest : String) (s : Planner) : Planner × List Effect :=
  if env.config_changed then
    ({ s with planned_event := some (rejectedEvent cid "Switching config") },
      [.configQuery false])
  else if env.tls then
    ({ s with
        planned_event := some (rejectedEvent cid "Encryption of downloads not supported") },
      [.configQuery false])
  else
    let url := "/p/teams/" ++ toString team ++ "/files/" ++ hash ++ "/raw"
    let fx := [Effect.configQuery false,
               Effect.downloadStart env.host env.port url dest]
    match env.down_result with
    | .download =>
        ({ s with download := some (),
                  planned_event := some { type := .Finished, command_id := some cid },
                  transfer_start_cmd := some cid }, fx)
    | .noTransferSlot =>
        ({ s with planned_event := some (rejectedEvent cid "Another transfer in progress") }, fx)
    | .alreadyExists =>
        ({ s with planned_event := some (rejectedEvent cid "File already exists") }, fx)
    | .refusedRequest =>
        ({ s with planned_event := some (rejectedEvent cid "Failed to download") }, fx)
    | .storage msg =>
        ({ s with planned_event := some (rejectedEvent cid msg) }, fx)

/-- Per-variant dispatch of Planner::command, reached only when no
background command is active. -/
def commandDispatch (env : CmdEnv) (c : Command) (s : Planner) :
    Planner × List Effect :=
  match c.data with
  | .unknown =>
      ({ s with planned_event := some (rejectedEvent c.id "Unknown command") }, [])
  | .broken r =>
      ({ s with planned_event := some (rejectedEvent c.id r) }, [])
  | .gcodeTooLarge =>
      ({ s with planned_event := some (rejectedEvent c.id "GCode too large") }, [])
  | .processingOtherCommand =>
      ({ s with
          planned_event := some (rejectedEvent c.id "Processing other command") },
        [])
  | .processingThisCommand =>
      -- Unreachable in the source (assert(0)): this variant is handled
      -- one level up while a background command runs.
      (s, [])
  | .gcode g =>
      ({ s with background_command := some { id := c.id, gcode := g },
                planned_event := some { type := .Accepted, command_id := some c.id } },
        [])
  | .pausePrint =>
      (if env.job_control .Pause then
        { s with planned_event := some { type := .Finished, command_id := some c.id } }
      else
        { s with planned_event := some (rejectedEvent c.id "No print to pause") },
        [.jobControl .Pause])
  | .resumePrint =>
      (if env.job_control .Resume then
        { s with planned_event := some { type := .Finished, command_id := some c.id } }
      else
        { s with planned_event := some (rejectedEvent c.id "No paused print to resume") },
        [.jobControl .Resume])
  | .stopPrint =>
      (if env.job_control .Stop then
        { s with planned_event := some { type := .Finished, command_id := some c.id } }
      else
        { s with planned_event := some (rejectedEvent c.id "No print to stop") },
        [.jobControl .Stop])
  | .startPrint path =>
      if !path_allowed path then
        ({ s with planned_event := some (rejectedEvent c.id "Forbidden path") }, [])
      else if !env.path_exists path then
        ({ s with planned_event := some (rejectedEvent c.id "File not found") }, [])
      else if !env.start_print path then
        ({ s with planned_event := some (rejectedEvent c.id "Can\x27t print now") },
          [.startPrintCall path])
      else
        ({ s with planned_event := some { type := .Finished, command_id := some c.id } },
          [.startPrintCall path])
  | .sendInfo =>
      ({ s with planned_event := some { type := .Info, command_id := some c.id } }, [])
  | .sendJobInfo j =>
      ({ s with planned_event := some { type := .JobInfo, command_id := some c.id, job_id := some j } }, [])
  | .sendFileInfo path =>
      if path_allowed path then
        ({ s with planned_event := some { type := .FileInfo, command_id := some c.id, path := some path } },
          [])
      else
        ({ s with planned_event := some (rejectedEvent c.id "Forbidden path") }, [])
  | .sendTransferInfo =>
      ({ s with planned_event := some { type := .TransferInfo, command_id := some c.id, start_cmd_id := s.transfer_start_cmd } }, [])
  | .setPrinterReady =>
      (if env.set_ready true then
        { s with planned_event := some { type := .Finished, command_id := some c.id } }
      else
        { s with planned_event := some (rejectedEvent c.id "Can\x27t set ready now") },
        [.setReady true])
  | .cancelPrinterReady =>
      ({ s with planned_event := some { type := .Finished, command_id := some c.id } },
        [.setReady false])
  | .startConnectDownload team hash path =>
      commandStartConnectDownload env c.id team hash path s

/-- Planner::command: while a background command is active, only an
Accepted (for ProcessingThisCommand) or a bare Rejected event is
planned and no handler runs; otherwise dispatch per variant. -/
def plannerCommand (env : CmdEnv) (c : Command) (s : Planner) :
    Planner × List Effect :=
  if s.background_command.isSome then
    let ty : EventType :=
      if c.data = .processingThisCommand then .Accepted else .Rejected
    ({ s with planned_event := some { type := ty, command_id := some c.id } }, [])
  else
    commandDispatch env c s

end ConnectClient

namespace UsbhPowerCycle

/-- The three phases of the USB power-cycle supervisor. -/
inductive Phase where
  | idle
  | power_off
  | power_on
deriving DecidableEq, Repr

/-- Supervisor state: the phase, the printing_paused flag and the
restart timer (the armed period in ms, none when not running). -/
structure UsbState where
  phase : Phase
  printing_paused : Bool
  timer : Option Nat
deriving DecidableEq, Repr

/-- The entry points of the supervisor: the io_error and port_disabled
triggers, the media_state_error and msc_active callbacks, and the
restart timer firing. -/
inductive UsbOp where
  | ioError
  | portDisabled
  | mediaStateError
  | mscActive
  | timerFired
deriving DecidableEq, Repr

/-- Externally visible actions of a supervisor step. -/
inductive UsbEffect where
  | usbStop
  | usbStart
  | printResume
  | warnUsbError
deriving DecidableEq, Repr

/-- One step of the supervisor, from src/unnamed/part_000: io_error and
port_disabled arm the 10 ms timer only in idle; media_state_error
raises printing_paused; msc_active in power_on with printing_paused
stops the timer, returns to idle and resumes the print; the timer
callback walks idle to power_off (stop USB, re-arm 150 ms), power_off
to power_on (start USB, re-arm 5000 ms) and power_on back to idle
(warning if the print was paused). -/
def usbStep (op : UsbOp) (s : UsbState) : UsbState × List UsbEffect :=
  match op with
  | .ioError =>
      if s.phase = .idle then ({ s with timer := some 10 }, []) else (s, [])
  | .portDisabled =>
      if s.phase = .idle then ({ s with timer := some 10 }, []) else (s, [])
  | .mediaStateError => ({ s with printing_paused := true }, [])
  | .mscActive =>
      if s.phase = .power_on ∧ s.printing_paused then
        ({ phase := .idle, printing_paused := false, timer := none },
          [.printResume])
      else (s, [])
  | .timerFired =>
      match s.phase with
      | .idle => ({ s with phase := .power_off, timer := some 150 }, [.usbStop])
      | .power_off =>
          ({ s with phase := .power_on, timer := some 5000 }, [.usbStart])
      | .power_on =>
          ({ s with phase := .idle, timer := none },
            if s.printing_paused then [.warnUsbError] else [])

end UsbhPowerCycle

namespace ConnectClient

/-- A baseline environment: time zero, both hashes zero, not printing,
no transfer, empty Monitor history. -/
def envBase : Env :=
  { now := 0, info_fingerprint := 0, files_hash := 0, is_printing := false,
    monitor_id := none, outcome := fun _ => none }

/-- A change tracker that has reported hash 0 and is clean. -/
def trackerAtZero : ChangedHash := { last := some 0, dirty := false }

/-- A steady-state Planner: both trackers clean at the baseline hashes,
everything else at its reset value. -/
def sBase : Planner :=
  { info_changes := trackerAtZero, file_changes := trackerAtZero }

/-- envBase with a changed printer-info fingerprint. -/
def envFp1 : Env := { envBase with info_fingerprint := 1 }

/-- sBase with a pending non-Info event (an Accepted for command 7). -/
def sAccepted7 : Planner :=
  { sBase with planned_event := some { type := .Accepted, command_id := some 7 } }

/-- sBase with an active background command. -/
def sBusy : Planner :=
  { sBase with background_command := some { id := 1, gcode := "G1 X10" } }

/-- A command environment where every printer call succeeds, the config
is unchanged, TLS is off and the download engine grants the slot. -/
def cmdEnvBase : CmdEnv :=
  { job_control := fun _ => true, start_print := fun _ => true,
    set_ready := fun _ => true, path_exists := fun _ => true,
    config_changed := false, tls := false, host := "example.com",
    port := 80, down_result := .download }

/-- envBase at a later time (20 seconds in). -/
def envLate : Env := { envBase with now := 20000 }

/-- sBase with a last success at time 0 (and nothing pending). -/
def sIdleOld : Planner := { sBase with last_success := some 0 }

/-- sBase with a pending self-synthesized Info event. -/
def sInfoPending : Planner := { sBase with planned_event := some infoEvent }

/-- envBase with no current transfer and the Monitor remembering a
Finished outcome for transfer 5. -/
def envMon : Env :=
  { envBase with monitor_id := none,
                 outcome := fun i => if i = 5 then some .Finished else none }

/-- sBase having observed transfer 5, started by command 9. -/
def sObserved5 : Planner :=
  { sBase with observed_transfer := some 5, transfer_start_cmd := some 9 }

end ConnectClient

namespace ConnectClient

lemma containsSub_iff_infix (n h : List Char) :
    containsSub n h = true ↔ n <:+: h := by
  induction h with
  | nil =>
      simp only [containsSub, List.isEmpty_iff]
      constructor
      · intro hn; simp [hn]
      · intro hn; exact List.eq_nil_of_infix_nil hn
  | cons c rest ih =>
      simp only [containsSub, Bool.or_eq_true, ih, List.isPrefixOf_iff_prefix]
      exact (List.infix_cons_iff).symm

/-- C7: path_allowed p holds exactly when p is the bare /usb or starts
with /usb/ and contains no /../ substring; in particular it accepts
/usb and /usb/foo.gco and rejects /usb/../etc and /home/x. -/
theorem path_allowed_correct :
    (∀ p : String,
      path_allowed p = true ↔
        ((p = "/usb" ∨ "/usb/".toList <+: p.toList) ∧
          ¬ ("/../".toList <:+: p.toList))) ∧
    path_allowed "/usb" = true ∧
    path_allowed "/usb/foo.gco" = true ∧
    path_allowed "/usb/../etc" = false ∧
    path_allowed "/home/x" = false := by
  refine ⟨fun p => ?_, by decide, by decide, by decide, by decide⟩
  simp only [path_allowed, Bool.and_eq_true, Bool.or_eq_true, Bool.not_eq_true',
    List.isPrefixOf_iff_prefix, decide_eq_true_eq,
    ← containsSub_iff_infix, Bool.not_eq_true]
  constructor
  · rintro ⟨h1, h2⟩
    exact ⟨h1.symm.imp id id, h2⟩
  · rintro ⟨h1, h2⟩
    exact ⟨h1.symm.imp id id, h2⟩

end ConnectClient

namespace ConnectClient

/-- C8: while a background command is active, Planner::command only
plans an Accepted (ProcessingThisCommand) or a bare Rejected event
carrying the command id and no reason, runs no per-variant handler
(empty effect trace) and leaves every other Planner field unchanged. -/
theorem command_while_busy_frame (env : CmdEnv) (c : Command) (s : Planner)
    (h : s.background_command.isSome = true) :
    plannerCommand env c s =
      ({ s with
          planned_event := some
            { type :=
                if c.data = .processingThisCommand then .Accepted
                else .Rejected,
              command_id := some c.id } }, []) := by
  simp only [plannerCommand, h, if_true]

/-- Witness for C8: a SendInfo command arriving while busy is bare
Rejected and nothing else changes. -/
theorem command_while_busy_frame_witness :
    plannerCommand cmdEnvBase { id := 3, data := .sendInfo } sBusy =
      ({ sBusy with
          planned_event := some { type := .Rejected, command_id := some 3 } },
        []) :=
  command_while_busy_frame cmdEnvBase { id := 3, data := .sendInfo } sBusy rfl

end ConnectClient

namespace UsbhPowerCycle

/-- C9: the supervisor phase only steps idle to power_off (timer
callback, stopping the USB stack), power_off to power_on (timer
callback, starting it) and power_on to idle (timer callback or
msc_active); io_error and port_disabled arm the 10 ms restart timer
exactly when the phase is idle and are dropped otherwise. -/
theorem usb_phase_transitions (s : UsbState) :
    (∀ op, (usbStep op s).1.phase = s.phase ∨
      (op = .timerFired ∧ s.phase = .idle ∧
        (usbStep op s).1.phase = .power_off) ∨
      (op = .timerFired ∧ s.phase = .power_off ∧
        (usbStep op s).1.phase = .power_on) ∨
      ((op = .timerFired ∨ op = .mscActive) ∧ s.phase = .power_on ∧
        (usbStep op s).1.phase = .idle)) ∧
    (s.phase = .idle →
      usbStep .timerFired s =
        ({ s with phase := .power_off, timer := some 150 }, [.usbStop])) ∧
    (s.phase = .power_off →
      usbStep .timerFired s =
        ({ s with phase := .power_on, timer := some 5000 }, [.usbStart])) ∧
    (s.phase = .idle →
      usbStep .ioError s = ({ s with timer := some 10 }, []) ∧
      usbStep .portDisabled s = ({ s with timer := some 10 }, [])) ∧
    (s.phase ≠ .idle →
      usbStep .ioError s = (s, []) ∧ usbStep .portDisabled s = (s, [])) := by
  refine ⟨fun op => ?_, ?_, ?_, ?_, ?_⟩
  · cases op <;> cases hp : s.phase <;>
      simp [usbStep, hp] <;> split <;> simp [hp]
  · intro hp; simp [usbStep, hp]
  · intro hp; simp [usbStep, hp]
  · intro hp; simp [usbStep, hp]
  · intro hp; simp [usbStep, hp]

/-- Witness for C9: from idle the timer callback powers off and stops
the USB stack, and io_error arms the 10 ms timer; from power_off the
triggers are dropped. -/
theorem usb_phase_transitions_witness :
    usbStep .timerFired { phase := .idle, printing_paused := false, timer := none } =
      ({ phase := .power_off, printing_paused := false, timer := some 150 },
        [.usbStop]) ∧
    usbStep .ioError { phase := .idle, printing_paused := false, timer := none } =
      ({ phase := .idle, printing_paused := false, timer := some 10 }, []) ∧
    usbStep .ioError { phase := .power_off, printing_paused := false, timer := some 150 } =
      ({ phase := .power_off, printing_paused := false, timer := some 150 }, []) :=
  ⟨(usb_phase_transitions _).2.1 rfl,
    ((usb_phase_transitions _).2.2.2.1 rfl).1,
    ((usb_phase_transitions _).2.2.2.2 (by decide)).1⟩

/-- C10: printing_paused is raised by media_state_error, survives the
power_on timeout path (which raises the USB flash-disk warning), and is
cleared exactly by the msc_active path in phase power_on, which returns
to idle and requests a print resume. -/
theorem usb_printing_paused (s : UsbState) :
    (usbStep .mediaStateError s).1.printing_paused = true ∧
    (usbStep .mediaStateError s).1.phase = s.phase ∧
    (s.phase = .power_on → s.printing_paused = true →
      usbStep .mscActive s =
        ({ phase := .idle, printing_paused := false, timer := none },
          [.printResume])) ∧
    (s.phase = .power_on →
      usbStep .timerFired s =
        ({ s with phase := .idle, timer := none },
          if s.printing_paused then [.warnUsbError] else [])) ∧
    (∀ op, s.printing_paused = true →
      (usbStep op s).1.printing_paused = false →
      op = .mscActive ∧ s.phase = .power_on) := by
  refine ⟨by simp [usbStep], by simp [usbStep], ?_, ?_, fun op h1 h2 => ?_⟩
  · intro hp hpp; simp [usbStep, hp, hpp]
  · intro hp; simp [usbStep, hp]
  · cases op <;> cases hp : s.phase <;>
      revert h2 <;> simp [usbStep, hp, h1]

end UsbhPowerCycle

namespace ConnectClient

lemma giveUp_cooldown (s : Planner) : (giveUp s).cooldown = s.cooldown := by
  unfold giveUp
  by_cases h : (s.failed_attempts + 1) % 256 ≥ GIVE_UP_AFTER_ATTEMPTS <;> simp [h]

lemma giveUp_last_success (s : Planner) :
    (giveUp s).last_success = s.last_success := by
  unfold giveUp
  by_cases h : (s.failed_attempts + 1) % 256 ≥ GIVE_UP_AFTER_ATTEMPTS <;> simp [h]

lemma reconnectCheck_cooldown (env : Env) (s : Planner) :
    (reconnectCheck env s).cooldown = s.cooldown := by
  unfold reconnectCheck
  cases hls : s.last_success <;> simp only [hls] <;> split <;> rfl

lemma reconnectCheck_failed_attempts (env : Env) (s : Planner) :
    (reconnectCheck env s).failed_attempts = s.failed_attempts := by
  unfold reconnectCheck
  cases hls : s.last_success <;> simp only [hls] <;> split <;> rfl

lemma reconnectCheck_of_planned (env : Env) (s : Planner) (e : Event)
    (h : s.planned_event = some e) : reconnectCheck env s = s := by
  unfold reconnectCheck
  cases hls : s.last_success <;> simp [hls, h]

lemma reconnectCheck_planned_none (env : Env) (s : Planner)
    (h : s.planned_event = none) :
    ((reconnectCheck env s).planned_event = none ∧
      (reconnectCheck env s).last_success = s.last_success) ∨
    (reconnectCheck env s).planned_event = some infoEvent := by
  unfold reconnectCheck
  cases hls : s.last_success with
  | none =>
      simp only [hls]
      split
      · right; rfl
      · left; exact ⟨h, hls⟩
  | some t =>
      simp only [hls]
      split
      · right; rfl
      · left; exact ⟨h, hls⟩

lemma applyCooldown_planned (s : Planner) :
    (applyCooldown s).planned_event = s.planned_event := rfl

lemma applyCooldown_failed_attempts (s : Planner) :
    (applyCooldown s).failed_attempts = s.failed_attempts := rfl

lemma applyCooldown_last_success (s : Planner) :
    (applyCooldown s).last_success = s.last_success := rfl

lemma actionDone_failed_eq (env : Env) (s : Planner) :
    actionDone env .Failed s =
      applyCooldown (reconnectCheck env (giveUp s)) := rfl

lemma actionDone_failed_cooldown (env : Env) (s : Planner) :
    (actionDone env .Failed s).cooldown =
      some (min COOLDOWN_MAX
        (s.cooldown.getD (COOLDOWN_BASE / 2) * 2 % 2 ^ 32)) := by
  rw [actionDone_failed_eq]
  show some (min COOLDOWN_MAX
    ((reconnectCheck env (giveUp s)).cooldown.getD (COOLDOWN_BASE / 2) * 2 % 2 ^ 32)) = _
  rw [reconnectCheck_cooldown, giveUp_cooldown]

lemma actionDone_failed_perform (env : Env) (s : Planner) :
    (actionDone env .Failed s).perform_cooldown = true := rfl

end ConnectClient

namespace ConnectClient

/-- C1 counterexample: a Planner that has never succeeded
(last_success = None), with no event pending after the give-up step.
The claim says a Failed result must plan an Info event; the code
computes since(last_success).value_or(0) = 0, which is below
RECONNECT_AFTER, so no Info event is planned. -/
theorem failed_never_succeeded_plans_nothing :
    sBase.last_success = none ∧
    (giveUp sBase).planned_event = none ∧
    (actionDone envBase .Failed sBase).planned_event = none := by
  decide

/-- C1 amended: a Failed result plans an Info event and clears
last_success when, after the give-up step, no event is pending and
last_success is Some t with at least RECONNECT_AFTER (10000 ms)
elapsed; the last_success = None case does not trigger this
(value_or(0) in the source). -/
theorem failed_reconnect_info (env : Env) (s : Planner) (t : Nat)
    (h1 : (giveUp s).planned_event = none)
    (h2 : s.last_success = some t)
    (h3 : RECONNECT_AFTER ≤ wrapSub env.now t) :
    (actionDone env .Failed s).planned_event = some infoEvent ∧
    (actionDone env .Failed s).last_success = none := by
  have hls : (giveUp s).last_success = some t := by
    rw [giveUp_last_success, h2]
  have hrc : reconnectCheck env (giveUp s) =
      { giveUp s with planned_event := some infoEvent, last_success := none } := by
    unfold reconnectCheck
    simp only [hls]
    rw [if_pos]
    exact ⟨h3, h1⟩
  rw [actionDone_failed_eq, applyCooldown_planned, applyCooldown_last_success, hrc]
  exact ⟨rfl, rfl⟩

/-- Witness for C1 amended: last success 10+ seconds old, nothing
pending: the Failed result plans the Info and clears last_success. -/
theorem failed_reconnect_info_witness :
    (actionDone envLate .Failed sIdleOld).planned_event = some infoEvent ∧
    (actionDone envLate .Failed sIdleOld).last_success = none :=
  failed_reconnect_info envLate sIdleOld 0 (by decide) rfl (by decide)

end ConnectClient

namespace ConnectClient

lemma failIter_succ (env : Env) (n : Nat) (s : Planner) :
    failIter env (n + 1) s = actionDone env .Failed (failIter env n s) := rfl

lemma failIter_perform (env : Env) (n : Nat) (s : Planner) :
    (failIter env (n + 1) s).perform_cooldown = true := by
  rw [failIter_succ]
  exact actionDone_failed_perform env _

lemma min_cooldown_double (x : Nat) :
    min COOLDOWN_MAX (min COOLDOWN_MAX x * 2 % 2 ^ 32) =
      min COOLDOWN_MAX (x * 2) := by
  have hb : min COOLDOWN_MAX x * 2 % 2 ^ 32 = min COOLDOWN_MAX x * 2 := by
    apply Nat.mod_eq_of_lt
    have : min COOLDOWN_MAX x ≤ COOLDOWN_MAX := Nat.min_le_left _ _
    unfold COOLDOWN_MAX at *
    omega
  rw [hb]
  rcases Nat.le_total x COOLDOWN_MAX with h | h
  · rw [Nat.min_eq_right h]
  · rw [Nat.min_eq_left h, Nat.min_eq_left (by unfold COOLDOWN_MAX at *; omega),
      Nat.min_eq_left (by unfold COOLDOWN_MAX at *; omega)]

lemma cooldown_closed_form (env : Env) :
    ∀ (n : Nat) (s : Planner), s.cooldown = none →
      (failIter env (n + 1) s).cooldown =
        some (min COOLDOWN_MAX (COOLDOWN_BASE * 2 ^ n)) := by
  intro n
  induction n with
  | zero =>
      intro s h
      rw [failIter_succ, actionDone_failed_cooldown]
      simp [failIter, h]
      rfl
  | succ n ih =>
      intro s h
      rw [failIter_succ, actionDone_failed_cooldown, ih s h]
      simp only [Option.getD_some]
      rw [min_cooldown_double]
      congr 1
      ring

/-- C4: from cooldown = None, the n-plus-first consecutive Failed
leaves cooldown = min(60000, 100 * 2^n) (so the values run 100, 200,
400, ... capped at 60000), sets perform_cooldown, and the next
next_action returns a Sleep of exactly that duration. -/
theorem cooldown_backoff (env : Env) (s : Planner) (n : Nat)
    (h : s.cooldown = none) :
    (failIter env (n + 1) s).cooldown =
      some (min COOLDOWN_MAX (COOLDOWN_BASE * 2 ^ n)) ∧
    (failIter env (n + 1) s).perform_cooldown = true ∧
    (nextAction env (failIter env (n + 1) s)).1 =
      mkSleep (failIter env (n + 1) s)
        (min COOLDOWN_MAX (COOLDOWN_BASE * 2 ^ n)) := by
  refine ⟨cooldown_closed_form env n s h, failIter_perform env n s, ?_⟩
  have hpc := failIter_perform env n s
  have hcd := cooldown_closed_form env n s h
  simp [nextAction, hpc, hcd, mkSleep]

/-- Witness for C4: four consecutive Failed calls from the reset state
leave cooldown 800 ms and the next action sleeps 800 ms. -/
theorem cooldown_backoff_witness :
    (failIter envBase 4 sBase).cooldown =
      some (min COOLDOWN_MAX (COOLDOWN_BASE * 2 ^ 3)) ∧
    (failIter envBase 4 sBase).perform_cooldown = true ∧
    (nextAction envBase (failIter envBase 4 sBase)).1 =
      mkSleep (failIter envBase 4 sBase)
        (min COOLDOWN_MAX (COOLDOWN_BASE * 2 ^ 3)) :=
  cooldown_backoff envBase sBase 3 rfl

end ConnectClient

namespace ConnectClient

lemma giveUp_no_trigger (s : Planner)
    (h2 : s.failed_attempts + 1 < GIVE_UP_AFTER_ATTEMPTS) :
    giveUp s = { s with failed_attempts := s.failed_attempts + 1 } := by
  unfold giveUp
  have hm : (s.failed_attempts + 1) % 256 = s.failed_attempts + 1 := by
    apply Nat.mod_eq_of_lt
    unfold GIVE_UP_AFTER_ATTEMPTS at h2
    omega
  rw [hm, if_neg (by omega)]

lemma actionDone_failed_keep (env : Env) (s : Planner) (e : Event)
    (h1 : s.planned_event = some e)
    (h2 : s.failed_attempts + 1 < GIVE_UP_AFTER_ATTEMPTS) :
    (actionDone env .Failed s).planned_event = some e ∧
    (actionDone env .Failed s).failed_attempts = s.failed_attempts + 1 := by
  rw [actionDone_failed_eq, giveUp_no_trigger s h2,
    reconnectCheck_of_planned env { s with failed_attempts := s.failed_attempts + 1 } e h1]
  exact ⟨h1, rfl⟩

lemma failIter_keep (env : Env) (e : Event) :
    ∀ (n : Nat) (s : Planner), s.planned_event = some e →
      s.failed_attempts + n < GIVE_UP_AFTER_ATTEMPTS →
      (failIter env n s).planned_event = some e ∧
      (failIter env n s).failed_attempts = s.failed_attempts + n := by
  intro n
  induction n with
  | zero => intro s h1 _; exact ⟨h1, rfl⟩
  | succ n ih =>
      intro s h1 h2
      have prev := ih s h1 (by omega)
      have step := actionDone_failed_keep env (failIter env n s) e prev.1
        (by rw [prev.2]; omega)
      rw [failIter_succ]
      refine ⟨step.1, ?_⟩
      rw [step.2, prev.2]
      omega

lemma giveUp_trigger_drop (s : Planner) (e : Event)
    (h1 : s.planned_event = some e) (he : e.type ≠ .Info)
    (hfa : s.failed_attempts = 4) :
    giveUp s = { s with planned_event := none, failed_attempts := 0 } := by
  unfold giveUp
  rw [hfa, h1]
  simp [GIVE_UP_AFTER_ATTEMPTS, he]

lemma giveUp_trigger_info (s : Planner) (e : Event)
    (h1 : s.planned_event = some e) (he : e.type = .Info)
    (hfa : s.failed_attempts = 4) :
    giveUp s = { s with planned_event := some e, failed_attempts := 0 } := by
  unfold giveUp
  rw [hfa, h1]
  simp [GIVE_UP_AFTER_ATTEMPTS, he]

lemma nextAction_of_cooldown (env : Env) (s : Planner)
    (h : s.perform_cooldown = true) :
    nextAction env s =
      (mkSleep { s with perform_cooldown := false } (s.cooldown.getD 0),
        { s with perform_cooldown := false }) := by
  simp [nextAction, h]

lemma nextAction_of_planned (env : Env) (s : Planner) (e : Event)
    (hpc : s.perform_cooldown = false) (h : s.planned_event = some e) :
    nextAction env s = (.event e, s) := by
  simp [nextAction, hpc, h]

/-- C3: with a pending event and failed_attempts 0, five consecutive
Failed results reset failed_attempts to 0; a non-Info event is dropped
(nothing pending afterwards beyond a possibly re-synthesized bare Info),
while an Info event persists and, once the cooldown sleep has been
taken, next_action returns it again. -/
theorem giveup_after_five_failures (env : Env) (s : Planner) (e : Event)
    (h1 : s.planned_event = some e) (h2 : s.failed_attempts = 0) :
    (failIter env 5 s).failed_attempts = 0 ∧
    (e.type ≠ .Info →
      (failIter env 5 s).planned_event = none ∨
      (failIter env 5 s).planned_event = some infoEvent) ∧
    (e.type = .Info →
      (failIter env 5 s).planned_event = some e ∧
      (nextAction env (nextAction env (failIter env 5 s)).2).1 = .event e) := by
  have h4 := failIter_keep env e 4 s h1 (by rw [h2]; decide)
  have hfa4 : (failIter env 4 s).failed_attempts = 4 := by
    rw [h4.2, h2]
  have h5 : failIter env 5 s =
      applyCooldown (reconnectCheck env (giveUp (failIter env 4 s))) := by
    rw [failIter_succ, actionDone_failed_eq]
  by_cases he : e.type = .Info
  · have hg := giveUp_trigger_info (failIter env 4 s) e h4.1 he hfa4
    have hplan : (failIter env 5 s).planned_event = some e := by
      rw [h5, applyCooldown_planned,
        reconnectCheck_of_planned env _ e (by rw [hg]), hg]
    have hfa : (failIter env 5 s).failed_attempts = 0 := by
      rw [h5, applyCooldown_failed_attempts, reconnectCheck_failed_attempts, hg]
    refine ⟨hfa, fun hne => absurd he hne, fun _ => ⟨hplan, ?_⟩⟩
    have hpc : (failIter env 5 s).perform_cooldown = true :=
      failIter_perform env 4 s
    generalize hgen : failIter env 5 s = S
    rw [hgen] at hplan hpc
    have hsecond : (nextAction env S).2 =
        { S with perform_cooldown := false } := by
      rw [nextAction_of_cooldown env _ hpc]
    rw [hsecond, nextAction_of_planned env
      { S with perform_cooldown := false } e rfl hplan]
  · have hg := giveUp_trigger_drop (failIter env 4 s) e h4.1 he hfa4
    have hrc := reconnectCheck_planned_none env (giveUp (failIter env 4 s))
      (by rw [hg])
    have hfa : (failIter env 5 s).failed_attempts = 0 := by
      rw [h5, applyCooldown_failed_attempts, reconnectCheck_failed_attempts, hg]
    refine ⟨hfa, fun _ => ?_, fun hi => absurd hi he⟩
    rw [h5, applyCooldown_planned]
    rcases hrc with ⟨hn, -⟩ | hi
    · left; exact hn
    · right; exact hi

/-- Witness for C3 (Info branch): a pending Info event survives five
Failed results, failed_attempts is back to 0, and after the cooldown
sleep next_action returns the Info event again. -/
theorem giveup_after_five_failures_witness :
    (failIter envBase 5 sInfoPending).failed_attempts = 0 ∧
    (failIter envBase 5 sInfoPending).planned_event = some infoEvent ∧
    (nextAction envBase (nextAction envBase (failIter envBase 5 sInfoPending)).2).1 =
      .event infoEvent := by
  have h := giveup_after_five_failures envBase sInfoPending infoEvent rfl rfl
  exact ⟨h.1, (h.2.2 rfl).1, (h.2.2 rfl).2⟩

end ConnectClient

namespace ConnectClient

/-- C2 counterexample: action_done(Ok) consumes a pending non-Info
(Accepted) event while the printer info fingerprint has changed; the
immediately following next_action returns an Info event, not
SendTelemetry. -/
theorem ok_consumed_event_not_telemetry :
    sAccepted7.planned_event = some { type := .Accepted, command_id := some 7 } ∧
    EventType.Accepted ≠ EventType.Info ∧
    (nextAction envFp1 (actionDone envFp1 .Ok sAccepted7)).1 =
      .event { type := .Info } ∧
    (nextAction envFp1 (actionDone envFp1 .Ok sAccepted7)).1 ≠
      .sendTelemetry false := by
  decide

/-- C2 amended: after action_done(Ok) consumes a pending non-Info
event, the next next_action returns SendTelemetry provided neither
change tracker reports a change for the current printer hashes and the
Monitor shows no unobserved terminated transfer with a retained
outcome. -/
theorem ok_consumed_event_then_telemetry (env : Env) (s : Planner) (e : Event)
    (h1 : s.planned_event = some e) (h2 : e.type ≠ .Info)
    (h3 : (s.info_changes.set_hash env.info_fingerprint).1 = false)
    (h4 : (s.file_changes.set_hash env.files_hash).1 = false)
    (h5 : env.monitor_id = s.observed_transfer ∨
      s.observed_transfer.bind env.outcome = none) :
    (nextAction env (actionDone env .Ok s)).1 = .sendTelemetry false := by
  obtain ⟨pe, lt, ls, cd, pc, fa, ic, fc, bg, dl, ot, tsc⟩ := s
  subst h1
  simp only [actionDone, h2, if_neg]
  rcases h5 with h5 | h5
  · simp [nextAction, h3, h4, h5, telemetryStep]
  · by_cases hmon : env.monitor_id = ot
    · simp [nextAction, h3, h4, hmon, telemetryStep]
    · rcases ot with - | tid
      · simp [nextAction, h3, h4, hmon, telemetryStep]
      · simp only [Option.bind_some] at h5
        simp [nextAction, h3, h4, hmon, h5, telemetryStep]

/-- Witness for C2 amended: the Accepted event is consumed, nothing
changed, and telemetry follows. -/
theorem ok_consumed_event_then_telemetry_witness :
    (nextAction envBase (actionDone envBase .Ok sAccepted7)).1 =
      .sendTelemetry false :=
  ok_consumed_event_then_telemetry envBase sAccepted7
    { type := .Accepted, command_id := some 7 } rfl (by decide) (by decide)
    (by decide) (Or.inl rfl)

end ConnectClient

namespace ConnectClient

lemma telemetryStep_state (env : Env) (s : Planner) :
    (telemetryStep env s).2 = s := by
  unfold telemetryStep
  cases hlt : s.last_telemetry with
  | none => rfl
  | some t =>
      simp only [hlt]
      split <;> split <;> rfl

lemma nextAction_observed_cases (env : Env) (s : Planner) :
    (nextAction env s).2.observed_transfer = s.observed_transfer ∨
    (nextAction env s).2.observed_transfer = env.monitor_id := by
  obtain ⟨pe, lt, ls, cd, pc, fa, ic, fc, bg, dl, ot, tsc⟩ := s
  simp only [nextAction]
  split
  · left; rfl
  · split
    · left; rfl
    · split
      · left; rfl
      · split
        · left; rfl
        · split
          · split
            · right; rfl
            · right; rw [telemetryStep_state]
          · left; rw [telemetryStep_state]

lemma nextAction_fresh_transfer (pid : Nat) (env : Env) (t : Planner)
    (ev2 : Event) (h : (nextAction env t).2.planned_event = some ev2)
    (ht : ev2.transfer_id = some pid)
    (ho : t.observed_transfer ≠ some pid) :
    t.planned_event = some ev2 := by
  obtain ⟨pe, lt, ls, cd, pc, fa, ic, fc, bg, dl, ot, tsc⟩ := t
  simp only [nextAction] at h
  split at h
  · exact h
  · split at h
    · exact h
    · split at h
      · simp only [Option.some.injEq] at h
        subst h
        simp at ht
      · split at h
        · simp only [Option.some.injEq] at h
          subst h
          simp at ht
        · split at h
          · split at h
            · simp only [Option.some.injEq] at h
              subst h
              exact absurd ht ho
            · rw [telemetryStep_state] at h
              exact h
          · rw [telemetryStep_state] at h
            exact h

end ConnectClient

namespace ConnectClient

lemma runNextActions_observed (pid : Nat) :
    ∀ (envs : List Env) (s : Planner), s.observed_transfer ≠ some pid →
      (∀ e ∈ envs, e.monitor_id ≠ some pid) →
      (runNextActions envs s).observed_transfer ≠ some pid := by
  intro envs
  induction envs with
  | nil => intro s hs _; exact hs
  | cons e rest ih =>
      intro s hs hm
      show (runNextActions rest (nextAction e s).2).observed_transfer ≠ some pid
      apply ih
      · rcases nextAction_observed_cases e s with h | h
        · rw [h]; exact hs
        · rw [h]; exact hm e (List.mem_cons_self e rest)
      · intro x hx
        exact hm x (List.mem_cons_of_mem _ hx)

/-- C5: when the Monitor's current id differs from observed_transfer,
the Monitor retains an outcome for the previous id, and nothing of
higher priority intervenes (no cooldown, no pending event, no tracker
change), next_action plans exactly one terminal event of the type
matching the outcome, carrying the previous id and the stored start
command id, then clears transfer_start_cmd; afterwards
observed_transfer tracks the Monitor, so as long as the Monitor never
reports the old id again no state in any following next_action sequence
can plan a fresh event for that transfer (conjuncts five and six). -/
theorem transfer_terminal_event (env : Env) (s : Planner)
    (prevId : Nat) (oc : Outcome)
    (h1 : s.perform_cooldown = false)
    (h2 : s.planned_event = none)
    (h3 : (s.info_changes.set_hash env.info_fingerprint).1 = false)
    (h4 : (s.file_changes.set_hash env.files_hash).1 = false)
    (h5 : s.observed_transfer = some prevId)
    (h6 : env.monitor_id ≠ some prevId)
    (h7 : env.outcome prevId = some oc) :
    (nextAction env s).1 = .event
      { type := outcomeEventType oc, transfer_id := some prevId,
        start_cmd_id := s.transfer_start_cmd } ∧
    (nextAction env s).2.planned_event = some
      { type := outcomeEventType oc, transfer_id := some prevId,
        start_cmd_id := s.transfer_start_cmd } ∧
    (nextAction env s).2.transfer_start_cmd = none ∧
    (nextAction env s).2.observed_transfer = env.monitor_id ∧
    (∀ envs : List Env, (∀ e ∈ envs, e.monitor_id ≠ some prevId) →
      (runNextActions envs (nextAction env s).2).observed_transfer ≠
        some prevId) ∧
    (∀ (t : Planner) (env2 : Env) (ev2 : Event),
      t.observed_transfer ≠ some prevId →
      (nextAction env2 t).2.planned_event = some ev2 →
      ev2.transfer_id = some prevId →
      t.planned_event = some ev2) := by
  have hmain : nextAction env s = (.event
      { type := outcomeEventType oc, transfer_id := some prevId,
        start_cmd_id := s.transfer_start_cmd },
      { s with info_changes := (s.info_changes.set_hash env.info_fingerprint).2,
               file_changes := (s.file_changes.set_hash env.files_hash).2,
               observed_transfer := env.monitor_id,
               planned_event := some
                 { type := outcomeEventType oc, transfer_id := some prevId,
                   start_cmd_id := s.transfer_start_cmd },
               transfer_start_cmd := none }) := by
    obtain ⟨pe, lt, ls, cd, pc, fa, ic, fc, bg, dl, ot, tsc⟩ := s
    have hpc : pc = false := h1
    have hpe : pe = none := h2
    have hot : ot = some prevId := h5
    have hic : (ChangedHash.set_hash env.info_fingerprint ic).1 = false := h3
    have hfc : (ChangedHash.set_hash env.files_hash fc).1 = false := h4
    subst hpc
    subst hpe
    subst hot
    have hb : Option.bind (some prevId) env.outcome = some oc := h7
    simp only [nextAction, hic, hfc, Bool.false_eq_true, if_false, hb, h7]
    rw [if_pos h6]
  refine ⟨?_, ?_, ?_, ?_, ?_, ?_⟩
  · rw [hmain]
  · rw [hmain]
  · rw [hmain]
  · rw [hmain]
  · intro envs hm
    apply runNextActions_observed prevId envs
    · rw [hmain]; exact h6
    · exact hm
  · intro t env2 ev2 hobs hplanned htid
    exact nextAction_fresh_transfer prevId env2 t ev2 hplanned htid hobs

/-- Witness for C5: observed transfer 5 finished (Monitor outcome
Finished, current id none): a TransferFinished event for id 5 with
start_cmd_id 9 is planned and transfer_start_cmd is cleared. -/
theorem transfer_terminal_event_witness :
    (nextAction envMon sObserved5).1 = .event
      { type := .TransferFinished, transfer_id := some 5,
        start_cmd_id := some 9 } ∧
    (nextAction envMon sObserved5).2.transfer_start_cmd = none ∧
    (nextAction envMon sObserved5).2.observed_transfer = none := by
  have h := transfer_terminal_event envMon sObserved5 5 .Finished rfl rfl
    (by decide) (by decide) rfl (by decide) (by decide)
  exact ⟨h.1, h.2.2.1, h.2.2.2.1⟩

end ConnectClient

namespace ConnectClient

/-- C6: StartConnectDownload checks in order: config drift (queried
without clearing the changed flag, hence the configQuery false effect
heading every trace) rejects with Switching config; TLS rejects with
Encryption of downloads not supported; otherwise the download result
maps to Finished (handle stored, transfer_start_cmd set to the command
id) or to the per-variant Rejected reasons. -/
theorem start_connect_download_cases (env : CmdEnv) (cid team : Nat)
    (hash dest : String) (s : Planner) (hbg : s.background_command = none) :
    (∃ fx, (plannerCommand env { id := cid, data := .startConnectDownload team hash dest } s).2 =
      Effect.configQuery false :: fx) ∧
    (env.config_changed = true →
      plannerCommand env { id := cid, data := .startConnectDownload team hash dest } s =
        ({ s with planned_event := some (rejectedEvent cid "Switching config") },
          [.configQuery false])) ∧
    (env.config_changed = false → env.tls = true →
      plannerCommand env { id := cid, data := .startConnectDownload team hash dest } s =
        ({ s with planned_event := some (rejectedEvent cid "Encryption of downloads not supported") },
          [.configQuery false])) ∧
    (env.config_changed = false → env.tls = false →
      (env.down_result = .download →
        (plannerCommand env { id := cid, data := .startConnectDownload team hash dest } s).1 =
          { s with download := some (),
                   planned_event := some { type := .Finished, command_id := some cid },
                   transfer_start_cmd := some cid }) ∧
      (env.down_result = .noTransferSlot →
        (plannerCommand env { id := cid, data := .startConnectDownload team hash dest } s).1 =
          { s with planned_event := some (rejectedEvent cid "Another transfer in progress") }) ∧
      (env.down_result = .alreadyExists →
        (plannerCommand env { id := cid, data := .startConnectDownload team hash dest } s).1 =
          { s with planned_event := some (rejectedEvent cid "File already exists") }) ∧
      (env.down_result = .refusedRequest →
        (plannerCommand env { id := cid, data := .startConnectDownload team hash dest } s).1 =
          { s with planned_event := some (rejectedEvent cid "Failed to download") }) ∧
      (∀ msg, env.down_result = .storage msg →
        (plannerCommand env { id := cid, data := .startConnectDownload team hash dest } s).1 =
          { s with planned_event := some (rejectedEvent cid msg) })) := by
  have hbg2 : s.background_command.isSome = false := by rw [hbg]; rfl
  have hcmd : plannerCommand env { id := cid, data := .startConnectDownload team hash dest } s =
      commandStartConnectDownload env cid team hash dest s := by
    simp [plannerCommand, hbg2, commandDispatch]
  rw [hcmd]
  unfold commandStartConnectDownload
  by_cases hc : env.config_changed
  · simp [hc]
  · by_cases ht : env.tls
    · simp [hc, ht]
    · have hc2 : env.config_changed = false := by
        revert hc; cases env.config_changed <;> simp
      have ht2 : env.tls = false := by
        revert ht; cases env.tls <;> simp
      refine ⟨⟨[Effect.downloadStart env.host env.port
          ("/p/teams/" ++ toString team ++ "/files/" ++ hash ++ "/raw") dest], ?_⟩,
        fun hcc => absurd hcc hc,
        fun _ htl => absurd htl ht,
        fun _ _ => ?_⟩
      · simp only [hc2, ht2, Bool.false_eq_true, if_false]
        cases env.down_result <;> rfl
      · refine ⟨fun hdr => ?_, fun hdr => ?_, fun hdr => ?_, fun hdr => ?_,
          fun msg hdr => ?_⟩ <;> simp [hc2, ht2, hdr]

/-- Witness for C6: with unchanged config, no TLS and a granted
download slot, the command yields Finished, stores the handle and
records the start command id. -/
theorem start_connect_download_cases_witness :
    (plannerCommand cmdEnvBase
        { id := 9, data := .startConnectDownload 17 "abc" "/usb/f.gco" } sBase).1 =
      { sBase with download := some (),
                   planned_event := some { type := .Finished, command_id := some 9 },
                   transfer_start_cmd := some 9 } :=
  ((start_connect_download_cases cmdEnvBase 9 17 "abc" "/usb/f.gco" sBase
    rfl).2.2.2 rfl rfl).1 rfl

end ConnectClient

namespace UsbhPowerCycle

/-- Witness for C10: msc_active in power_on with a paused print goes
back to idle, clears printing_paused and requests the resume. -/
theorem usb_printing_paused_witness :
    usbStep .mscActive
        { phase := .power_on, printing_paused := true, timer := some 5000 } =
      ({ phase := .idle, printing_paused := false, timer := none },
        [.printResume]) :=
  (usb_printing_paused
    { phase := .power_on, printing_paused := true, timer := some 5000 }).2.2.1
    rfl rfl

end UsbhPowerCycle
